import Mathlib

/-!
Verification development for the trackermap ingestion pipeline
(src/trackermap/trackermap.py and src/trackermap/tracker_db.py).

The Python code is shallowly embedded: JSON values are an inductive type,
Python subscripting and coercions are explicit functions returning
`Except PyErr`, the `on_message` callback becomes a pure function from the
parsed payload to the list of rows it writes to each sink together with the
exception (if any) that escapes to the caller, and the SQLite store and the
CSV log file are explicit states.
-/

/-- Exceptions that the embedded Python fragments can raise. -/
inductive PyErr
  | jsonDecodeError
  | keyError
  | typeError
  | indexError
  | valueError
  | unboundLocalError
  | sqliteError
deriving DecidableEq, Repr

/-- JSON values as produced by `json.loads`. Numbers are modelled as
rationals (covering Python int and float payload values; non-finite float
literals are out of scope). Objects keep their key order; `json.loads`
yields objects with pairwise distinct keys. -/
inductive JValue
  | null
  | bool (b : Bool)
  | num (q : Rat)
  | str (s : String)
  | arr (xs : List JValue)
  | obj (fields : List (String × JValue))

/-- First binding of a key in an association list of object fields. -/
def lookupField : List (String × JValue) → String → Option JValue
  | [], _ => none
  | (k, v) :: rest, key => if k = key then some v else lookupField rest key

/-- Python subscripting `x[key]` with a string key: dictionaries look the
key up (missing key raises KeyError); every other JSON value raises
TypeError, matching CPython semantics for str/list/int/float/None. -/
def subKey : JValue → String → Except PyErr JValue
  | .obj fields, k =>
      match lookupField fields k with
      | some v => .ok v
      | none => .error .keyError
  | _, _ => .error .typeError

/-- Python subscripting `x[0]`: lists yield their head (IndexError when
empty), strings yield their first character as a one-character string,
dictionaries raise KeyError (0 is not a JSON object key), everything else
raises TypeError. -/
def subZero : JValue → Except PyErr JValue
  | .arr [] => .error .indexError
  | .arr (x :: _) => .ok x
  | .obj _ => .error .keyError
  | .str s =>
      match s.data with
      | [] => .error .indexError
      | c :: _ => .ok (.str (String.mk [c]))
  | _ => .error .typeError

/-- Python iteration `for x in v`: lists yield elements, dictionaries yield
their keys, strings yield one-character strings; numbers, booleans and None
are not iterable (TypeError). -/
def pyIter : JValue → Except PyErr (List JValue)
  | .arr xs => .ok xs
  | .obj fields => .ok (fields.map (fun p => JValue.str p.1))
  | .str s => .ok (s.data.map (fun c => JValue.str (String.mk [c])))
  | _ => .error .typeError

/-- Python equality `v == lit` between an arbitrary value and a string
literal: true exactly for an equal string; never raises. -/
def pyEqStr : JValue → String → Bool
  | .str t, s => t = s
  | _, _ => false

/-- Python comparison `v != 0.0`: numbers compare numerically, booleans
numerically (False equals 0.0), every other value is unequal to 0.0. -/
def pyNeZero : JValue → Bool
  | .num q => decide (q ≠ 0)
  | .bool b => b
  | _ => true

/-- Value of a nonempty all-digit character list, accumulator style. -/
def digitsVal : List Char → Nat → Option Nat
  | [], acc => some acc
  | c :: rest, acc =>
      if c.isDigit then digitsVal rest (acc * 10 + (c.toNat - 48)) else none

/-- Whitespace stripped by Python `int(str)`. -/
def isPySpace (c : Char) : Bool := c = ' ' || c = '\t' || c = '\n' || c = '\r'

/-- Python `int(s)` on a string: strip whitespace, optional sign, then a
nonempty digit run; anything else raises ValueError. (Digit-group
underscores are not modelled.) -/
def parseIntStr (s : String) : Except PyErr Int :=
  let core := ((s.data.dropWhile isPySpace).reverse.dropWhile isPySpace).reverse
  match core with
  | '-' :: rest =>
      match rest, digitsVal rest 0 with
      | _ :: _, some n => .ok (-(n : Int))
      | _, _ => .error .valueError
  | '+' :: rest =>
      match rest, digitsVal rest 0 with
      | _ :: _, some n => .ok (n : Int)
      | _, _ => .error .valueError
  | rest =>
      match rest, digitsVal rest 0 with
      | _ :: _, some n => .ok (n : Int)
      | _, _ => .error .valueError

/-- Python `int(v)`: ints and floats truncate toward zero, booleans map to
0/1, strings are parsed, other values raise TypeError. -/
def pyInt : JValue → Except PyErr Int
  | .num q => .ok (Int.tdiv q.num (q.den : Int))
  | .bool b => .ok (if b then 1 else 0)
  | .str s => parseIntStr s
  | _ => .error .typeError

/-! Calendar arithmetic for `datetime.fromtimestamp(_, ZoneInfo("Europe/Berlin"))`
followed by `strftime("%Y-%m-%d %H:%M")`. Civil-date conversions use the
standard era-based algorithms; the Europe/Berlin offset follows the EU
daylight-saving rule in force since 1996 (UTC+2 from the last Sunday of
March 01:00 UTC until the last Sunday of October 01:00 UTC, else UTC+1),
which is exactly what the tz database applies to all modern instants. -/

/-- Civil date (year, month, day) of a day count relative to 1970-01-01. -/
def civilFromDays (z0 : Int) : Int × Int × Int :=
  let z := z0 + 719468
  let era := Int.fdiv z 146097
  let doe := z - era * 146097
  let yoe := Int.fdiv (doe - Int.fdiv doe 1460 + Int.fdiv doe 36524 - Int.fdiv doe 146096) 365
  let y := yoe + era * 400
  let doy := doe - (365 * yoe + Int.fdiv yoe 4 - Int.fdiv yoe 100)
  let mp := Int.fdiv (5 * doy + 2) 153
  let d := doy - Int.fdiv (153 * mp + 2) 5 + 1
  let m := mp + (if mp < 10 then 3 else -9)
  (y + (if m ≤ 2 then 1 else 0), m, d)

/-- Day count relative to 1970-01-01 of a civil date. -/
def daysFromCivil (y0 m d : Int) : Int :=
  let y := y0 - (if m ≤ 2 then 1 else 0)
  let era := Int.fdiv y 400
  let yoe := y - era * 400
  let doy := Int.fdiv (153 * (m + (if m > 2 then -3 else 9)) + 2) 5 + d - 1
  let doe := yoe * 365 + Int.fdiv yoe 4 - Int.fdiv yoe 100 + doy
  era * 146097 + doe - 719468

/-- Epoch seconds of 01:00 UTC on the last Sunday of month `m` (March or
October, both 31 days) of year `y`. -/
def lastSundayUtc1 (y m : Int) : Int :=
  let z := daysFromCivil y m 31
  let dow := Int.emod (z + 4) 7
  (z - dow) * 86400 + 3600

/-- UTC offset in seconds that Europe/Berlin applies at UTC instant `t`. -/
def berlinOffset (t : Int) : Int :=
  let y := (civilFromDays (Int.fdiv t 86400)).1
  if lastSundayUtc1 y 3 ≤ t ∧ t < lastSundayUtc1 y 10 then 7200 else 3600

/-- Europe/Berlin local clock seconds for an epoch-millisecond instant. -/
def localSeconds (ms : Int) : Int :=
  let s := Int.fdiv ms 1000
  s + berlinOffset s

/-- Two decimal digits, zero padded. -/
def twoDig (n : Nat) : List Char :=
  [Nat.digitChar (n / 10 % 10), Nat.digitChar (n % 10)]

/-- Four decimal digits, zero padded. -/
def fourDig (n : Nat) : List Char :=
  [Nat.digitChar (n / 1000 % 10), Nat.digitChar (n / 100 % 10),
   Nat.digitChar (n / 10 % 10), Nat.digitChar (n % 10)]

/-- Rendering of `strftime("%Y-%m-%d %H:%M")`. -/
def fmtYMDHM (y mo d h mi : Nat) : String :=
  String.mk (fourDig y ++ '-' :: twoDig mo ++ '-' :: twoDig d ++
    ' ' :: twoDig h ++ ':' :: twoDig mi)

/-- Minute-precision Europe/Berlin rendering of an epoch-millisecond
instant, as produced by lines 118-120 of trackermap.py. -/
def fmtBerlinMs (ms : Int) : String :=
  let localT := localSeconds ms
  let z := Int.fdiv localT 86400
  let sod := (localT - z * 86400).toNat
  let c := civilFromDays z
  fmtYMDHM c.1.toNat c.2.1.toNat c.2.2.toNat (sod / 3600) (sod % 3600 / 60)

/-- Local instants representable by `datetime` (year 1 through 9999). -/
def tsRangeOk (ms : Int) : Bool :=
  decide (-62135596800 ≤ localSeconds ms) && decide (localSeconds ms ≤ 253402300799)

/-- Combined `datetime.fromtimestamp` plus `strftime` step: out-of-range
instants raise (ValueError in CPython), in-range instants format. -/
def fromtimestampFmt (ms : Int) : Except PyErr String :=
  if tsRangeOk ms then .ok (fmtBerlinMs ms) else .error .valueError

/-- The tracker_info dictionary built by on_message; keys with hyphens
(gw-rssi and friends) are spelled with underscores in Lean. Field values
stay JSON values because the Python dictionary stores whatever the payload
held. -/
structure TrackerInfo where
  tracker_id : JValue
  latitude : JValue
  longitude : JValue
  battery : JValue
  timestamp : JValue
  gw_rssi : JValue
  gw_name : JValue
  gw_latitude : JValue
  gw_longitude : JValue

/-- Initial tracker_info dictionary of on_message (lines 78-89). -/
def initTrackerInfo : TrackerInfo :=
  { tracker_id := .str ""
    latitude := .num 0
    longitude := .num 0
    battery := .num 0
    timestamp := .str ""
    gw_rssi := .num (-70)
    gw_name := .str ""
    gw_latitude := .num 0
    gw_longitude := .num 0 }

/-- Measurement branch for code "4197" (lines 116-120): store the value as
longitude and format the companion epoch-millisecond timestamp. -/
def step4197 (ti : TrackerInfo) (m : JValue) (mid : JValue) : Except PyErr TrackerInfo :=
  if pyEqStr mid "4197" then
    match subKey m "measurementValue" with
    | .error e => .error e
    | .ok v =>
      match subKey m "timestamp" with
      | .error e => .error e
      | .ok tsv =>
        match pyInt tsv with
        | .error e => .error e
        | .ok n =>
          match fromtimestampFmt n with
          | .error e => .error e
          | .ok s => .ok { ti with longitude := v, timestamp := .str s }
  else .ok ti

/-- Measurement branch for code "4198" (lines 121-122). -/
def step4198 (ti : TrackerInfo) (m : JValue) (mid : JValue) : Except PyErr TrackerInfo :=
  if pyEqStr mid "4198" then
    match subKey m "measurementValue" with
    | .error e => .error e
    | .ok v => .ok { ti with latitude := v }
  else .ok ti

/-- Measurement branch for code "3000" (lines 123-124). -/
def step3000 (ti : TrackerInfo) (m : JValue) (mid : JValue) : Except PyErr TrackerInfo :=
  if pyEqStr mid "3000" then
    match subKey m "measurementValue" with
    | .error e => .error e
    | .ok v => .ok { ti with battery := v }
  else .ok ti

/-- One iteration of the measurement loop (lines 115-124): three
independent if-statements keyed on measurementId. -/
def processMeasurement (ti : TrackerInfo) (m : JValue) : Except PyErr TrackerInfo :=
  match subKey m "measurementId" with
  | .error e => .error e
  | .ok mid =>
    match step4197 ti m mid with
    | .error e => .error e
    | .ok ti1 =>
      match step4198 ti1 m mid with
      | .error e => .error e
      | .ok ti2 => step3000 ti2 m mid

/-- The whole measurement loop over the iterated payload. -/
def foldProcess (ti : TrackerInfo) : List JValue → Except PyErr TrackerInfo
  | [] => .ok ti
  | m :: ms =>
      match processMeasurement ti m with
      | .ok ti1 => foldProcess ti1 ms
      | .error e => .error e

/-- Device id extraction (line 98). -/
def getDev (data : JValue) : Except PyErr JValue :=
  match subKey data "end_device_ids" with
  | .error e => .error e
  | .ok a => subKey a "device_id"

/-- First decoded-payload message (line 104). -/
def getPayl (data : JValue) : Except PyErr JValue :=
  match subKey data "uplink_message" with
  | .error e => .error e
  | .ok a =>
    match subKey a "decoded_payload" with
    | .error e => .error e
    | .ok b =>
      match subKey b "messages" with
      | .error e => .error e
      | .ok c => subZero c

/-- First rx_metadata element (line 105). -/
def getRx (data : JValue) : Except PyErr JValue :=
  match subKey data "uplink_message" with
  | .error e => .error e
  | .ok a =>
    match subKey a "rx_metadata" with
    | .error e => .error e
    | .ok b => subZero b

/-- Gateway metadata assignments (lines 109-113). -/
def fillMeta (dev rx : JValue) : Except PyErr TrackerInfo :=
  match subKey rx "gateway_ids" with
  | .error e => .error e
  | .ok gwids =>
    match subKey gwids "gateway_id" with
    | .error e => .error e
    | .ok gwname =>
      match subKey rx "rssi" with
      | .error e => .error e
      | .ok rssi =>
        match subKey rx "location" with
        | .error e => .error e
        | .ok loc =>
          match subKey loc "latitude" with
          | .error e => .error e
          | .ok gla =>
            match subKey loc "longitude" with
            | .error e => .error e
            | .ok glo =>
              .ok { initTrackerInfo with
                      tracker_id := dev, gw_name := gwname, gw_rssi := rssi,
                      gw_latitude := gla, gw_longitude := glo }

/-- Body of the third try-block of on_message (lines 104-124) up to the
fully decoded tracker_info, for a message whose device id was found. -/
def block3 (data dev : JValue) : Except PyErr TrackerInfo :=
  match getPayl data with
  | .error e => .error e
  | .ok payl =>
    match getRx data with
    | .error e => .error e
    | .ok rx =>
      match fillMeta dev rx with
      | .error e => .error e
      | .ok ti =>
        match pyIter payl with
        | .error e => .error e
        | .ok ms => foldProcess ti ms

/-- Observable outcome of one on_message invocation: rows inserted into the
tracker_data table, rows appended to the CSV log, the decoded tracker_info
reaching line 125 (if decoding completed), the exceptions caught and logged
inside the handler, and the exception escaping to the caller (if any). -/
structure HandlerResult where
  inserts : List TrackerInfo
  csvRows : List TrackerInfo
  decoded : Option TrackerInfo
  loggedErrors : List PyErr
  raised : Option PyErr

/-- Outcome when a decoded row passes the zero check: one row to each
sink. -/
def persistResult (ti : TrackerInfo) : HandlerResult :=
  { inserts := [ti], csvRows := [ti], decoded := some ti,
    loggedErrors := [], raised := none }

/-- Outcome when a decoded row fails the zero check: nothing persisted. -/
def skipResult (ti : TrackerInfo) : HandlerResult :=
  { inserts := [], csvRows := [], decoded := some ti,
    loggedErrors := [], raised := none }

/-- Outcome when the third try-block raised KeyError and its handler
logged it. -/
def caughtResult : HandlerResult :=
  { inserts := [], csvRows := [], decoded := none,
    loggedErrors := [PyErr.keyError], raised := none }

/-- Outcome when the third try-block raised something the KeyError handler
does not catch. -/
def raisedFromBlock3 (e : PyErr) : HandlerResult :=
  { inserts := [], csvRows := [], decoded := none,
    loggedErrors := [], raised := some e }

/-- Outcome when the device id was missing (its KeyError was logged by the
second try-block) and the handler then raised. -/
def noDevResult (e : PyErr) : HandlerResult :=
  { inserts := [], csvRows := [], decoded := none,
    loggedErrors := [PyErr.keyError], raised := some e }

/-- Outcome when json.loads failed: the JSONDecodeError is logged, then
reading the unassigned local `data` raises UnboundLocalError. -/
def parseFailResult : HandlerResult :=
  { inserts := [], csvRows := [], decoded := none,
    loggedErrors := [PyErr.jsonDecodeError], raised := some PyErr.unboundLocalError }

/-- Outcome when the device id extraction raised something other than
KeyError (for example TypeError on a non-object body). -/
def badDevResult (e : PyErr) : HandlerResult :=
  { inserts := [], csvRows := [], decoded := none,
    loggedErrors := [], raised := some e }

/-- Dispatch on the result of the third try-block, for a message whose
device id was found (lines 103-131). -/
def afterBlock3 : Except PyErr TrackerInfo → HandlerResult
  | .ok ti =>
      if pyNeZero ti.latitude && pyNeZero ti.longitude then persistResult ti
      else skipResult ti
  | .error e =>
      if e = .keyError then caughtResult else raisedFromBlock3 e

/-- Continuation of on_message once the device id lookup succeeded. -/
def handleWithDev (data dev : JValue) : HandlerResult :=
  afterBlock3 (block3 data dev)

/-- Evaluation of lines 104-105 alone (their results are unusable when the
device id is unbound): first messages[0], then rx_metadata[0]. -/
def getPaylRx (data : JValue) : Except PyErr JValue :=
  match getPayl data with
  | .error e => .error e
  | .ok _ => getRx data

/-- Dispatch for a message whose device id lookup raised KeyError: the
local `dev` stays unbound, so line 106 (when lines 104-105 succeed) or the
logging call of the KeyError handler (line 130) raises UnboundLocalError;
other exceptions of lines 104-105 propagate. -/
def afterNoDev : Except PyErr JValue → HandlerResult
  | .ok _ => noDevResult .unboundLocalError
  | .error e =>
      if e = .keyError then noDevResult .unboundLocalError else noDevResult e

/-- Continuation of on_message when the device id lookup raised KeyError. -/
def handleNoDev (data : JValue) : HandlerResult :=
  afterNoDev (getPaylRx data)

/-- Dispatch on the device id lookup (lines 97-101). -/
def dispatchDev (data : JValue) : Except PyErr JValue → HandlerResult
  | .ok dev => handleWithDev data dev
  | .error e =>
      if e = .keyError then handleNoDev data else badDevResult e

/-- The on_message callback (lines 67-131) as a function from the parse
outcome of msg.payload (`none` models a payload that json.loads rejects) to
its observable outcome. On a parse failure the handler logs the
JSONDecodeError but falls through with the local `data` unbound, so the
next try-block raises UnboundLocalError, which its KeyError handler does
not catch. -/
def on_message (parsed : Option JValue) : HandlerResult :=
  match parsed with
  | none => parseFailResult
  | some data => dispatchDev data (getDev data)

/-! Reading store: tracker_db.py. The SQLite connection state is the list
of committed tracker_data rows plus the rows executed inside the currently
open implicit transaction but not yet committed. -/

/-- Failure injection point for one insert call: no failure, the INSERT
statement fails, or the commit fails. -/
inductive SqlOutcome
  | ok
  | failExecute
  | failCommit
deriving DecidableEq

/-- SQLite connection state for the tracker_data table. -/
structure DBState where
  committed : List TrackerInfo
  pending : List TrackerInfo

/-- cursor.execute of the INSERT statement (lines 95-111 of tracker_db.py):
on success the row joins the open transaction. -/
def sqlExecuteInsert (db : DBState) (row : TrackerInfo) (o : SqlOutcome) :
    Except PyErr DBState :=
  match o with
  | .failExecute => .error .sqliteError
  | _ => .ok { db with pending := db.pending ++ [row] }

/-- conn.commit (line 112): on success every pending row becomes durable. -/
def sqlCommit (db : DBState) (o : SqlOutcome) : Except PyErr DBState :=
  match o with
  | .failCommit => .error .sqliteError
  | _ => .ok { committed := db.committed ++ db.pending, pending := [] }

/-- The try-block body of insert_tracker_info: connection state reached
when the body finishes or the exception interrupts it. -/
def insertBody (db : DBState) (row : TrackerInfo) (o : SqlOutcome) :
    DBState × Option PyErr :=
  match sqlExecuteInsert db row o with
  | .error e => (db, some e)
  | .ok db1 =>
      match sqlCommit db1 o with
      | .error e => (db1, some e)
      | .ok db2 => (db2, none)

/-- insert_tracker_info (lines 84-114 of tracker_db.py): sqlite3.Error is
caught and logged (the Bool records that the error branch ran); any other
exception would propagate. Returns the connection state seen by the
caller. -/
def insert_tracker_info (db : DBState) (row : TrackerInfo) (o : SqlOutcome) :
    Except PyErr (DBState × Bool) :=
  match insertBody db row o with
  | (db1, none) => .ok (db1, false)
  | (db1, some .sqliteError) => .ok (db1, true)
  | (_, some e) => .error e

/-! Durable log writer: init_csv_writer (lines 134-152 of trackermap.py)
plus csv_writer.writerow (line 128). The file is a list of lines; a header
line is distinguished structurally from a data row. -/

/-- One line of the CSV log file. -/
inductive CsvLine
  | header
  | row (ti : TrackerInfo)

/-- init_csv_writer: check os.path.isfile, open in append mode (creating a
missing file empty), and write the header row only when the file did not
exist. Returns the resulting file content. -/
def init_csv_writer : Option (List CsvLine) → List CsvLine
  | none => [CsvLine.header]
  | some ls => ls

/-- csv_writer.writerow: append one data row. -/
def writerow (f : List CsvLine) (ti : TrackerInfo) : List CsvLine :=
  f ++ [CsvLine.row ti]

/-- Sequence of writerow calls within one process lifetime. -/
def writeRows (f : List CsvLine) : List TrackerInfo → List CsvLine
  | [] => f
  | r :: rs => writeRows (writerow f r) rs

/-- One process lifetime: init_csv_writer on the current file state, then
the rows written during that run. -/
def runSession (f : Option (List CsvLine)) (rows : List TrackerInfo) : List CsvLine :=
  writeRows (init_csv_writer f) rows

/-- Any number of process restarts against the same file path. -/
def runSessions : List (List TrackerInfo) → Option (List CsvLine) → Option (List CsvLine)
  | [], f => f
  | rows :: rest, f => runSessions rest (some (runSession f rows))

/-- Test for the header line. -/
def isHeaderLine : CsvLine → Bool
  | .header => true
  | .row _ => false

/-- Number of header lines in a file state. -/
def headerCount : Option (List CsvLine) → Nat
  | none => 0
  | some ls => ls.countP isHeaderLine

/-! Schema initialization: init_db (lines 27-81 of tracker_db.py) over an
explicit filesystem of SQLite database files, each carrying the list of its
tables. -/

/-- A SQLite database file: the tables it contains. -/
structure SqliteDBFile where
  tables : List String

/-- Filesystem: newest binding of a path shadows older ones. -/
abbrev DbFS : Type := List (String × SqliteDBFile)

/-- File currently at a path. -/
def fsLookup : DbFS → String → Option SqliteDBFile
  | [], _ => none
  | (p, f) :: rest, path => if p = path then some f else fsLookup rest path

/-- sqlite3.connect: creates an empty database file when the path has
none. -/
def sqlConnect (fs : DbFS) (path : String) : DbFS :=
  match fsLookup fs path with
  | some _ => fs
  | none => (path, ⟨[]⟩) :: fs

/-- CREATE TABLE (no IF NOT EXISTS): fails with a sqlite error when the
table already exists. -/
def createTable (fs : DbFS) (path name : String) : Except PyErr DbFS :=
  match fsLookup fs path with
  | none => .error .sqliteError
  | some f =>
      if name ∈ f.tables then .error .sqliteError
      else .ok ((path, ⟨f.tables ++ [name]⟩) :: fs)

/-- init_db: remember whether a file already existed at the path, connect
(creating the file if needed), and only when the file is new create the
tracker_data and tracker_config tables. A sqlite error is caught and the
function returns None instead of a connection; the connection is modelled
by the path it is open on. -/
def init_db (fs : DbFS) (path : String) : DbFS × Option String :=
  let dbExists := (fsLookup fs path).isSome
  let fs1 := sqlConnect fs path
  if dbExists then (fs1, some path)
  else
    match createTable fs1 path "tracker_data" with
    | .error _ => (fs1, none)
    | .ok fs2 =>
        match createTable fs2 path "tracker_config" with
        | .error _ => (fs2, none)
        | .ok fs3 => (fs3, some path)

/-- Whether a table exists in the database file at a path. -/
def tableExists (fs : DbFS) (path name : String) : Bool :=
  match fsLookup fs path with
  | none => false
  | some f => name ∈ f.tables

/-! Concrete sample payloads used by witnesses and counterexamples. -/

/-- A position measurement entry with code 4197 and the reference epoch. -/
def meas4197 : JValue :=
  JValue.obj [("measurementId", .str "4197"), ("measurementValue", .num 13),
    ("timestamp", .num 1700000000000)]

/-- A measurement entry carrying only an id and a value. -/
def measIdVal (id : String) (v : Rat) : JValue :=
  JValue.obj [("measurementId", .str id), ("measurementValue", .num v)]

/-- A fully well-formed uplink envelope with position, battery and an
unrecognized measurement code. -/
def sampleUplink : JValue :=
  JValue.obj [
    ("end_device_ids", .obj [("device_id", .str "dev-1")]),
    ("uplink_message", .obj [
      ("decoded_payload", .obj [("messages", .arr [
        .arr [meas4197, measIdVal "4198" 52, measIdVal "3000" 87,
              measIdVal "9999" 5]])]),
      ("rx_metadata", .arr [ .obj [
        ("gateway_ids", .obj [("gateway_id", .str "gw-1")]),
        ("rssi", .num (-42)),
        ("location", .obj [("latitude", .num 51), ("longitude", .num 12)])]])])]

/-- The tracker_info row that sampleUplink decodes to. -/
def sampleReading : TrackerInfo :=
  { tracker_id := .str "dev-1"
    latitude := .num 52
    longitude := .num 13
    battery := .num 87
    timestamp := .str "2023-11-14 23:13"
    gw_rssi := .num (-42)
    gw_name := .str "gw-1"
    gw_latitude := .num 51
    gw_longitude := .num 12 }

/-- A well-formed envelope whose messages list is empty, so that
`messages[0]` raises IndexError inside the third try-block. -/
def emptyMessagesUplink : JValue :=
  JValue.obj [
    ("end_device_ids", .obj [("device_id", .str "dev-1")]),
    ("uplink_message", .obj [
      ("decoded_payload", .obj [("messages", .arr [])]),
      ("rx_metadata", .arr [ .obj [
        ("gateway_ids", .obj [("gateway_id", .str "gw-1")]),
        ("rssi", .num (-42)),
        ("location", .obj [("latitude", .num 51), ("longitude", .num 12)])]])])]

/-- An envelope whose end_device_ids member is a number, so the device id
lookup raises TypeError, and which lacks uplink_message entirely. -/
def badDevUplink : JValue := JValue.obj [("end_device_ids", .num 5)]

/-- An envelope with device id and messages but no rx_metadata. -/
def missingRxUplink : JValue :=
  JValue.obj [
    ("end_device_ids", .obj [("device_id", .str "dev-1")]),
    ("uplink_message", .obj [
      ("decoded_payload", .obj [("messages", .arr [.arr []])])])]

/-! Claim theorems. -/

/-- Claim C1 (code_bug evidence): on_message does raise to its caller. On
a malformed-JSON payload the handler logs the JSONDecodeError but then
reads the unassigned local `data`, raising UnboundLocalError, and on a
well-formed envelope whose messages list is empty, `messages[0]` raises
IndexError, which the KeyError handler does not catch. -/
theorem on_message_raises_on_bad_payload :
    (on_message none).raised = some PyErr.unboundLocalError ∧
    (on_message (some emptyMessagesUplink)).raised = some PyErr.indexError :=
  ⟨rfl, rfl⟩

/-- Claim C4 (code_bug evidence): on a payload that is not valid JSON no
reading is decoded and neither sink is touched, but processing does not
terminate at the parse step: the handler falls through to the device-id
extraction and raises UnboundLocalError to its caller. -/
theorem malformed_json_effects :
    (on_message none).inserts = [] ∧ (on_message none).csvRows = [] ∧
    (on_message none).decoded = none ∧
    (on_message none).raised = some PyErr.unboundLocalError :=
  ⟨rfl, rfl, rfl, rfl⟩

/-- Writing a run of rows appends exactly their data lines. -/
lemma writeRows_eq (rows : List TrackerInfo) (f : List CsvLine) :
    writeRows f rows = f ++ rows.map CsvLine.row := by
  induction rows generalizing f with
  | nil => simp [writeRows]
  | cons r rs ih => simp [writeRows, writerow, ih]

/-- Data rows contribute no header lines. -/
lemma countP_writeRows (rows : List TrackerInfo) (f : List CsvLine) :
    (writeRows f rows).countP isHeaderLine = f.countP isHeaderLine := by
  rw [writeRows_eq]
  simp [List.countP_append, List.countP_map, Function.comp, isHeaderLine]

/-- Restarting any number of times on an existing file preserves the
number of header lines. -/
lemma headerCount_runSessions_some (sessions : List (List TrackerInfo))
    (ls : List CsvLine) :
    headerCount (runSessions sessions (some ls)) = headerCount (some ls) := by
  induction sessions generalizing ls with
  | nil => rfl
  | cons s rest ih =>
      show headerCount (runSessions rest (some (runSession (some ls) s))) =
        headerCount (some ls)
      rw [ih]
      exact countP_writeRows s ls

/-- Claim C6: init_csv_writer writes the header row exactly when the file
does not already exist (first conjunct), the header appears exactly once in
the file across any nonempty sequence of process restarts starting from no
file (second conjunct), and a call on an existing file only ever appends
after the existing content (third conjunct). -/
theorem csv_header_once :
    (∀ f : Option (List CsvLine),
       (f = none → init_csv_writer f = [CsvLine.header]) ∧
       (∀ ls, f = some ls → init_csv_writer f = ls)) ∧
    (∀ sessions : List (List TrackerInfo), sessions ≠ [] →
       headerCount (runSessions sessions none) = 1) ∧
    (∀ (ls : List CsvLine) (rows : List TrackerInfo),
       ∃ suffix, runSession (some ls) rows = ls ++ suffix) := by
  refine ⟨fun f => ⟨fun h => by subst h; rfl, fun ls h => by subst h; rfl⟩, ?_, ?_⟩
  · intro sessions hne
    match sessions with
    | [] => exact absurd rfl hne
    | s :: rest =>
        show headerCount (runSessions rest (some (runSession none s))) = 1
        rw [headerCount_runSessions_some]
        show (writeRows (init_csv_writer none) s).countP isHeaderLine = 1
        rw [countP_writeRows]
        rfl
  · intro ls rows
    exact ⟨rows.map CsvLine.row, writeRows_eq rows ls⟩

/-- Witness for claim C6 at concrete inputs: a missing file gets the
header, two restarts leave exactly one header line, and a session on an
existing one-header file appends after it. -/
theorem csv_header_once_witness :
    init_csv_writer none = [CsvLine.header] ∧
    headerCount (runSessions [[initTrackerInfo], []] none) = 1 ∧
    ∃ suffix, runSession (some [CsvLine.header]) [initTrackerInfo] =
      [CsvLine.header] ++ suffix :=
  ⟨(csv_header_once.1 none).1 rfl,
   csv_header_once.2.1 [[initTrackerInfo], []] (by simp),
   csv_header_once.2.2 [CsvLine.header] [initTrackerInfo]⟩

/-- Claim C7: insert_tracker_info never lets a SQLite error reach its
caller, and whenever the statement or the commit fails the committed
contents of tracker_data are unchanged and the error branch has logged. -/
theorem insert_swallows_sqlite_errors (db : DBState) (row : TrackerInfo)
    (o : SqlOutcome) :
    (∃ r, insert_tracker_info db row o = .ok r) ∧
    (∀ db1 logged, insert_tracker_info db row o = .ok (db1, logged) →
       o ≠ SqlOutcome.ok → db1.committed = db.committed ∧ logged = true) := by
  cases o with
  | ok =>
      refine ⟨⟨({ committed := db.committed ++ (db.pending ++ [row]), pending := [] }, false), rfl⟩, ?_⟩
      intro db1 logged _ hne
      exact absurd rfl hne
  | failExecute =>
      refine ⟨⟨(db, true), rfl⟩, ?_⟩
      intro db1 logged h _
      simp only [insert_tracker_info, insertBody, sqlExecuteInsert] at h
      cases h
      exact ⟨rfl, rfl⟩
  | failCommit =>
      refine ⟨⟨({ db with pending := db.pending ++ [row] }, true), rfl⟩, ?_⟩
      intro db1 logged h _
      simp only [insert_tracker_info, insertBody, sqlExecuteInsert, sqlCommit] at h
      cases h
      exact ⟨rfl, rfl⟩

/-- Witness for claim C7 at a concrete failing commit: the call returns
normally, the committed table is unchanged and the failure was logged. -/
theorem insert_swallows_sqlite_errors_witness :
    ({ committed := [], pending := [initTrackerInfo] } : DBState).committed =
      (⟨[], []⟩ : DBState).committed ∧ true = true :=
  (insert_swallows_sqlite_errors ⟨[], []⟩ initTrackerInfo .failCommit).2
    { committed := [], pending := [initTrackerInfo] } true rfl (by simp)

/-- A filesystem already holding a schemaless database file at the default
path, as left behind for example by a run interrupted between connect and
table creation, or by any other process creating the file. -/
def fsPreexisting : DbFS := [("tracker_data.db", ⟨[]⟩)]

/-- Counterexample to claim C8 as stated: on a path where a file already
exists without the schema, init_db returns a connection successfully, yet
neither tracker_data nor tracker_config exists afterwards, because the
code keys table creation on file existence rather than table existence. -/
theorem init_db_existing_file_missing_schema :
    (init_db fsPreexisting "tracker_data.db").2 = some "tracker_data.db" ∧
    tableExists (init_db fsPreexisting "tracker_data.db").1 "tracker_data.db"
      "tracker_data" = false ∧
    tableExists (init_db fsPreexisting "tracker_data.db").1 "tracker_data.db"
      "tracker_config" = false :=
  ⟨rfl, rfl, rfl⟩

/-- Claim C8 as amended: when no file exists at the path, init_db creates
the database with both the tracker_data and tracker_config tables and
returns a connection, and calling init_db again on the same path succeeds
and leaves the filesystem (hence the schema) unchanged; when a file
already exists, init_db returns a connection without touching or checking
the schema. -/
theorem init_db_fresh_creates_schema (fs : DbFS) (p : String)
    (h : fsLookup fs p = none) :
    (init_db fs p).2 = some p ∧
    tableExists (init_db fs p).1 p "tracker_data" = true ∧
    tableExists (init_db fs p).1 p "tracker_config" = true ∧
    init_db (init_db fs p).1 p = ((init_db fs p).1, some p) := by
  have h1 : init_db fs p =
      ((p, ⟨["tracker_data", "tracker_config"]⟩) ::
        (p, ⟨["tracker_data"]⟩) :: (p, ⟨[]⟩) :: fs, some p) := by
    simp [init_db, sqlConnect, createTable, fsLookup, h]
  rw [h1]
  refine ⟨rfl, ?_, ?_, ?_⟩
  · simp [tableExists, fsLookup]
  · simp [tableExists, fsLookup]
  · simp [init_db, sqlConnect, fsLookup]

/-- Witness for the amended claim C8 at the default path on an empty
filesystem. -/
theorem init_db_fresh_creates_schema_witness :
    (init_db ([] : DbFS) "tracker_data.db").2 = some "tracker_data.db" ∧
    tableExists (init_db ([] : DbFS) "tracker_data.db").1 "tracker_data.db"
      "tracker_data" = true ∧
    tableExists (init_db ([] : DbFS) "tracker_data.db").1 "tracker_data.db"
      "tracker_config" = true ∧
    init_db (init_db ([] : DbFS) "tracker_data.db").1 "tracker_data.db" =
      ((init_db ([] : DbFS) "tracker_data.db").1, some "tracker_data.db") :=
  init_db_fresh_creates_schema [] "tracker_data.db" rfl

/-- The strftime rendering is never the empty string. -/
lemma fmtYMDHM_ne_empty (y mo d h mi : Nat) : fmtYMDHM y mo d h mi ≠ "" := by
  intro hc
  have h2 : (fourDig y ++ '-' :: twoDig mo ++ '-' :: twoDig d ++
      ' ' :: twoDig h ++ ':' :: twoDig mi) = ([] : List Char) :=
    congrArg String.data hc
  simp [fourDig] at h2

/-- The Berlin minute rendering is never the empty string. -/
lemma fmtBerlinMs_ne_empty (ms : Int) : fmtBerlinMs ms ≠ "" :=
  fmtYMDHM_ne_empty _ _ _ _ _

/-- A successful fromtimestamp-and-format step yields the Berlin rendering,
in particular a nonempty string. -/
lemma fromtimestampFmt_ok (n : Int) (s : String)
    (h : fromtimestampFmt n = .ok s) : s = fmtBerlinMs n ∧ s ≠ "" := by
  unfold fromtimestampFmt at h
  split at h
  · cases h
    exact ⟨rfl, fmtBerlinMs_ne_empty n⟩
  · cases h

/-- The metadata assignments never touch the position, battery or
timestamp fields, which keep their initial sentinel values. -/
lemma fillMeta_defaults (dev rx : JValue) (ti : TrackerInfo)
    (h : fillMeta dev rx = .ok ti) :
    ti.latitude = .num 0 ∧ ti.longitude = .num 0 ∧
    ti.timestamp = .str "" ∧ ti.battery = .num 0 := by
  unfold fillMeta at h
  repeat' split at h
  all_goals cases h
  exact ⟨rfl, rfl, rfl, rfl⟩

/-- Timestamp invariant of the measurement loop: whenever the longitude
has been set to a value the zero check accepts, the timestamp is no longer
the empty-string default. -/
def TsInv (ti : TrackerInfo) : Prop :=
  pyNeZero ti.longitude = true → ti.timestamp ≠ JValue.str ""

/-- The code-4197 branch preserves the timestamp invariant: it sets the
longitude and the timestamp together, and the timestamp it writes is a
nonempty rendering. -/
lemma step4197_inv (ti ti' : TrackerInfo) (m mid : JValue)
    (h : step4197 ti m mid = .ok ti') (hi : TsInv ti) : TsInv ti' := by
  unfold step4197 at h
  split at h
  · repeat' split at h
    all_goals cases h
    rename_i s hfmt
    intro _ hc
    injection hc with hs
    exact (fromtimestampFmt_ok _ s hfmt).2 hs
  · cases h
    exact hi

/-- The code-4198 branch changes only the latitude. -/
lemma step4198_fields (ti ti' : TrackerInfo) (m mid : JValue)
    (h : step4198 ti m mid = .ok ti') :
    ti'.longitude = ti.longitude ∧ ti'.timestamp = ti.timestamp := by
  unfold step4198 at h
  repeat' split at h
  all_goals cases h
  all_goals exact ⟨rfl, rfl⟩

/-- The code-3000 branch changes only the battery. -/
lemma step3000_fields (ti ti' : TrackerInfo) (m mid : JValue)
    (h : step3000 ti m mid = .ok ti') :
    ti'.longitude = ti.longitude ∧ ti'.timestamp = ti.timestamp := by
  unfold step3000 at h
  repeat' split at h
  all_goals cases h
  all_goals exact ⟨rfl, rfl⟩

/-- One loop iteration preserves the timestamp invariant. -/
lemma processMeasurement_inv (ti ti' : TrackerInfo) (m : JValue)
    (h : processMeasurement ti m = .ok ti') (hi : TsInv ti) : TsInv ti' := by
  unfold processMeasurement at h
  split at h
  · cases h
  · rename_i mid hmid
    split at h
    · cases h
    · rename_i ti1 h1
      split at h
      · cases h
      · rename_i ti2 h2
        have i1 : TsInv ti1 := step4197_inv ti ti1 m mid h1 hi
        have f2 := step4198_fields ti1 ti2 m mid h2
        have f3 := step3000_fields ti2 ti' m mid h
        intro hlong
        rw [f3.1, f2.1] at hlong
        rw [f3.2, f2.2]
        exact i1 hlong

/-- The whole measurement loop preserves the timestamp invariant. -/
lemma foldProcess_inv (ms : List JValue) (ti ti' : TrackerInfo)
    (h : foldProcess ti ms = .ok ti') (hi : TsInv ti) : TsInv ti' := by
  induction ms generalizing ti with
  | nil =>
      unfold foldProcess at h
      cases h
      exact hi
  | cons m rest ih =>
      unfold foldProcess at h
      split at h
      · rename_i ti1 h1
        exact ih ti1 h (processMeasurement_inv ti ti1 m h1 hi)
      · cases h

/-- A tracker_info decoded by the third try-block satisfies the timestamp
invariant. -/
lemma block3_inv (data dev : JValue) (ti : TrackerInfo)
    (h : block3 data dev = .ok ti) : TsInv ti := by
  unfold block3 at h
  split at h
  · cases h
  · split at h
    · cases h
    · split at h
      · cases h
      · split at h
        · cases h
        · rename_i ti0 hfill _ ms _
          refine foldProcess_inv ms ti0 ti h ?_
          intro hlong
          rw [(fillMeta_defaults _ _ _ hfill).2.1] at hlong
          simp [pyNeZero] at hlong

/-- The no-device continuation touches neither sink. -/
lemma afterNoDev_sinks (r : Except PyErr JValue) :
    (afterNoDev r).inserts = [] ∧ (afterNoDev r).csvRows = [] := by
  cases r with
  | ok v => exact ⟨rfl, rfl⟩
  | error e =>
      show ((if e = PyErr.keyError then noDevResult .unboundLocalError
              else noDevResult e).inserts = []) ∧
        ((if e = PyErr.keyError then noDevResult .unboundLocalError
           else noDevResult e).csvRows = [])
      constructor <;> split <;> rfl

/-- Any row reaching either sink was decoded by block3 and passed the
zero-sentinel check on both coordinates. -/
lemma persisted_mem (p : Option JValue) (ti : TrackerInfo)
    (h : ti ∈ (on_message p).inserts ∨ ti ∈ (on_message p).csvRows) :
    (∃ data dev, block3 data dev = .ok ti) ∧
    pyNeZero ti.latitude = true ∧ pyNeZero ti.longitude = true := by
  match p with
  | none => simp [on_message, parseFailResult] at h
  | some data =>
      rw [show on_message (some data) = dispatchDev data (getDev data) from rfl] at h
      cases hdev : getDev data with
      | ok dev =>
          rw [hdev,
            show dispatchDev data (Except.ok dev) = afterBlock3 (block3 data dev) from rfl] at h
          cases hb : block3 data dev with
          | ok ti1 =>
              rw [hb,
                show afterBlock3 (Except.ok ti1) =
                  if pyNeZero ti1.latitude && pyNeZero ti1.longitude then
                    persistResult ti1 else skipResult ti1 from rfl] at h
              by_cases hg : (pyNeZero ti1.latitude && pyNeZero ti1.longitude) = true
              · rw [if_pos hg] at h
                have hti : ti = ti1 := by
                  rcases h with h | h <;> simpa [persistResult] using h
                subst hti
                rw [Bool.and_eq_true] at hg
                exact ⟨⟨data, dev, hb⟩, hg.1, hg.2⟩
              · rw [if_neg hg] at h
                simp [skipResult] at h
          | error e =>
              rw [hb,
                show afterBlock3 (Except.error e) =
                  if e = PyErr.keyError then caughtResult else raisedFromBlock3 e from rfl] at h
              by_cases he : e = PyErr.keyError
              · rw [if_pos he] at h
                simp [caughtResult] at h
              · rw [if_neg he] at h
                simp [raisedFromBlock3] at h
      | error e =>
          rw [hdev,
            show dispatchDev data (Except.error e) =
              if e = PyErr.keyError then handleNoDev data else badDevResult e from rfl] at h
          by_cases he : e = PyErr.keyError
          · rw [if_pos he] at h
            rcases h with h | h
            · rw [show (handleNoDev data).inserts =
                  (afterNoDev (getPaylRx data)).inserts from rfl,
                (afterNoDev_sinks (getPaylRx data)).1] at h
              simp at h
            · rw [show (handleNoDev data).csvRows =
                  (afterNoDev (getPaylRx data)).csvRows from rfl,
                (afterNoDev_sinks (getPaylRx data)).2] at h
              simp at h
          · rw [if_neg he] at h
            simp [badDevResult] at h

/-- Claim C2: a Reading reaches the tracker_data insert or the CSV log
only if both its latitude and its longitude pass the Python `!= 0.0` check
after decoding; in particular a Reading whose coordinates are both 0.0 is
never written to either sink. -/
theorem persisted_nonzero (p : Option JValue) (ti : TrackerInfo)
    (h : ti ∈ (on_message p).inserts ∨ ti ∈ (on_message p).csvRows) :
    pyNeZero ti.latitude = true ∧ pyNeZero ti.longitude = true :=
  (persisted_mem p ti h).2

/-- Witness for claim C2: the sample uplink persists one row, and the
theorem yields its coordinates nonzero. -/
theorem persisted_nonzero_witness :
    pyNeZero sampleReading.latitude = true ∧
    pyNeZero sampleReading.longitude = true :=
  persisted_nonzero (some sampleUplink) sampleReading
    (Or.inl (by
      rw [show (on_message (some sampleUplink)).inserts = [sampleReading] from rfl]
      exact List.mem_singleton.mpr rfl))

/-- Claim C10: every Reading reaching either sink carries a nonempty
timestamp, because persistence needs a nonzero longitude, the longitude is
only set by a 4197 measurement, and that branch simultaneously writes a
nonempty formatted timestamp. -/
theorem persisted_timestamp_nonempty (p : Option JValue) (ti : TrackerInfo)
    (h : ti ∈ (on_message p).inserts ∨ ti ∈ (on_message p).csvRows) :
    ti.timestamp ≠ JValue.str "" := by
  obtain ⟨⟨data, dev, hb⟩, _, hlong⟩ := persisted_mem p ti h
  exact block3_inv data dev ti hb hlong

/-- Witness for claim C10 on the persisted sample row. -/
theorem persisted_timestamp_nonempty_witness :
    sampleReading.timestamp ≠ JValue.str "" :=
  persisted_timestamp_nonempty (some sampleUplink) sampleReading
    (Or.inl (by
      rw [show (on_message (some sampleUplink)).inserts = [sampleReading] from rfl]
      exact List.mem_singleton.mpr rfl))

/-- Every shape of the no-device continuation. -/
lemma afterNoDev_shape (r : Except PyErr JValue) :
    ∃ e, afterNoDev r = noDevResult e := by
  cases r with
  | ok v => exact ⟨.unboundLocalError, rfl⟩
  | error e =>
      by_cases he : e = PyErr.keyError
      · refine ⟨.unboundLocalError, ?_⟩
        rw [show afterNoDev (Except.error e) =
            if e = PyErr.keyError then noDevResult .unboundLocalError
            else noDevResult e from rfl, if_pos he]
      · refine ⟨e, ?_⟩
        rw [show afterNoDev (Except.error e) =
            if e = PyErr.keyError then noDevResult .unboundLocalError
            else noDevResult e from rfl, if_neg he]

/-- A failed device id lookup produces no sink writes, no decoded reading,
and either a logged error or an escaped exception. -/
lemma dispatch_nodev_empty (data : JValue) (e : PyErr) :
    (dispatchDev data (Except.error e)).inserts = [] ∧
    (dispatchDev data (Except.error e)).csvRows = [] ∧
    (dispatchDev data (Except.error e)).decoded = none ∧
    ((dispatchDev data (Except.error e)).loggedErrors ≠ [] ∨
     (dispatchDev data (Except.error e)).raised ≠ none) := by
  rw [show dispatchDev data (Except.error e) =
      if e = PyErr.keyError then handleNoDev data else badDevResult e from rfl]
  by_cases he : e = PyErr.keyError
  · rw [if_pos he]
    obtain ⟨e2, h2⟩ := afterNoDev_shape (getPaylRx data)
    rw [show handleNoDev data = afterNoDev (getPaylRx data) from rfl, h2]
    exact ⟨rfl, rfl, rfl, Or.inl (by simp [noDevResult])⟩
  · rw [if_neg he]
    exact ⟨rfl, rfl, rfl, Or.inr (by simp [badDevResult])⟩

/-- A failed third try-block produces no sink writes, no decoded reading,
and either a logged error or an escaped exception. -/
lemma afterBlock3_err_empty (e : PyErr) :
    (afterBlock3 (Except.error e)).inserts = [] ∧
    (afterBlock3 (Except.error e)).csvRows = [] ∧
    (afterBlock3 (Except.error e)).decoded = none ∧
    ((afterBlock3 (Except.error e)).loggedErrors ≠ [] ∨
     (afterBlock3 (Except.error e)).raised ≠ none) := by
  rw [show afterBlock3 (Except.error e) =
      if e = PyErr.keyError then caughtResult else raisedFromBlock3 e from rfl]
  by_cases he : e = PyErr.keyError
  · rw [if_pos he]
    exact ⟨rfl, rfl, rfl, Or.inl (by simp [caughtResult])⟩
  · rw [if_neg he]
    exact ⟨rfl, rfl, rfl, Or.inr (by simp [raisedFromBlock3])⟩

/-- A keyError from the messages path fails the third try-block. -/
lemma block3_getPayl_err (data dev : JValue) (e : PyErr)
    (h : getPayl data = .error e) : block3 data dev = .error e := by
  unfold block3
  rw [h]

/-- A keyError from the rx_metadata path fails the third try-block. -/
lemma block3_getRx_err (data dev payl : JValue) (e : PyErr)
    (hp : getPayl data = .ok payl) (h : getRx data = .error e) :
    block3 data dev = .error e := by
  unfold block3
  rw [hp, h]

/-- Counterexample to claim C5 as stated: the body of badDevUplink lacks
both the uplink_message.decoded_payload.messages structure and the
uplink_message.rx_metadata structure, and indeed nothing is persisted and
nothing decoded, but no reason is logged: the device id extraction raises
TypeError on the numeric end_device_ids member, which the KeyError handler
does not catch, so the handler escapes before reaching the third
try-block and its logging. -/
theorem missing_structure_unlogged_escape :
    getPayl badDevUplink = .error .keyError ∧
    (on_message (some badDevUplink)).inserts = [] ∧
    (on_message (some badDevUplink)).csvRows = [] ∧
    (on_message (some badDevUplink)).decoded = none ∧
    (on_message (some badDevUplink)).loggedErrors = [] ∧
    (on_message (some badDevUplink)).raised = some PyErr.typeError :=
  ⟨rfl, rfl, rfl, rfl, rfl, rfl⟩

/-- Claim C5 as amended: an uplink whose body lacks the
uplink_message.decoded_payload.messages structure or the
uplink_message.rx_metadata structure persists nothing to either sink and
decodes no reading, and the failure is either logged (the KeyError caught
by the handler) or escapes the handler as an exception with nothing
logged (when another exception, such as TypeError from an ill-typed body,
intervenes first). -/
theorem missing_structure_not_persisted (data : JValue)
    (h : getPayl data = .error .keyError ∨ getRx data = .error .keyError) :
    (on_message (some data)).inserts = [] ∧
    (on_message (some data)).csvRows = [] ∧
    (on_message (some data)).decoded = none ∧
    ((on_message (some data)).loggedErrors ≠ [] ∨
     (on_message (some data)).raised ≠ none) := by
  rw [show on_message (some data) = dispatchDev data (getDev data) from rfl]
  cases hdev : getDev data with
  | error e => exact dispatch_nodev_empty data e
  | ok dev =>
      rw [show dispatchDev data (Except.ok dev) =
          afterBlock3 (block3 data dev) from rfl]
      have hb : ∃ e2, block3 data dev = .error e2 := by
        rcases h with h | h
        · exact ⟨_, block3_getPayl_err data dev _ h⟩
        · cases hp : getPayl data with
          | error e3 => exact ⟨e3, block3_getPayl_err data dev e3 hp⟩
          | ok payl => exact ⟨_, block3_getRx_err data dev payl _ hp h⟩
      obtain ⟨e2, hb⟩ := hb
      rw [hb]
      exact afterBlock3_err_empty e2

/-- Witness for claim C5 on a concrete envelope lacking rx_metadata. -/
theorem missing_structure_not_persisted_witness :
    (on_message (some missingRxUplink)).inserts = [] ∧
    (on_message (some missingRxUplink)).csvRows = [] ∧
    (on_message (some missingRxUplink)).decoded = none ∧
    ((on_message (some missingRxUplink)).loggedErrors ≠ [] ∨
     (on_message (some missingRxUplink)).raised ≠ none) :=
  missing_structure_not_persisted missingRxUplink (Or.inr rfl)

/-- The 4197 branch skips measurements with another id. -/
lemma step4197_skip (ti : TrackerInfo) (m mid : JValue)
    (hne : pyEqStr mid "4197" = false) : step4197 ti m mid = .ok ti := by
  unfold step4197
  rw [if_neg (by simp [hne])]

/-- The 4198 branch skips measurements with another id. -/
lemma step4198_skip (ti : TrackerInfo) (m mid : JValue)
    (hne : pyEqStr mid "4198" = false) : step4198 ti m mid = .ok ti := by
  unfold step4198
  rw [if_neg (by simp [hne])]

/-- The 3000 branch skips measurements with another id. -/
lemma step3000_skip (ti : TrackerInfo) (m mid : JValue)
    (hne : pyEqStr mid "3000" = false) : step3000 ti m mid = .ok ti := by
  unfold step3000
  rw [if_neg (by simp [hne])]

/-- The 4197 branch on a matching entry writes the longitude and the
formatted timestamp. -/
lemma step4197_set (ti : TrackerInfo) (m v tsv : JValue) (n : Int) (s : String)
    (h2 : subKey m "measurementValue" = .ok v)
    (h3 : subKey m "timestamp" = .ok tsv)
    (h4 : pyInt tsv = .ok n)
    (h5 : fromtimestampFmt n = .ok s) :
    step4197 ti m (.str "4197") = .ok { ti with longitude := v, timestamp := .str s } := by
  unfold step4197
  rw [if_pos (show pyEqStr (JValue.str "4197") "4197" = true from rfl)]
  simp only [h2, h3, h4, h5]

/-- The 4198 branch on a matching entry writes the latitude. -/
lemma step4198_set (ti : TrackerInfo) (m v : JValue)
    (h2 : subKey m "measurementValue" = .ok v) :
    step4198 ti m (.str "4198") = .ok { ti with latitude := v } := by
  unfold step4198
  rw [if_pos (show pyEqStr (JValue.str "4198") "4198" = true from rfl)]
  simp only [h2]

/-- The 3000 branch on a matching entry writes the battery. -/
lemma step3000_set (ti : TrackerInfo) (m v : JValue)
    (h2 : subKey m "measurementValue" = .ok v) :
    step3000 ti m (.str "3000") = .ok { ti with battery := v } := by
  unfold step3000
  rw [if_pos (show pyEqStr (JValue.str "3000") "3000" = true from rfl)]
  simp only [h2]

/-- A loop iteration over a code-4197 entry. -/
lemma processMeasurement_4197 (ti : TrackerInfo) (m v tsv : JValue) (n : Int)
    (s : String)
    (h1 : subKey m "measurementId" = .ok (.str "4197"))
    (h2 : subKey m "measurementValue" = .ok v)
    (h3 : subKey m "timestamp" = .ok tsv)
    (h4 : pyInt tsv = .ok n)
    (h5 : fromtimestampFmt n = .ok s) :
    processMeasurement ti m = .ok { ti with longitude := v, timestamp := .str s } := by
  unfold processMeasurement
  simp only [h1, step4197_set ti m v tsv n s h2 h3 h4 h5,
    step4198_skip _ m (JValue.str "4197") rfl,
    step3000_skip _ m (JValue.str "4197") rfl]

/-- A loop iteration over a code-4198 entry. -/
lemma processMeasurement_4198 (ti : TrackerInfo) (m v : JValue)
    (h1 : subKey m "measurementId" = .ok (.str "4198"))
    (h2 : subKey m "measurementValue" = .ok v) :
    processMeasurement ti m = .ok { ti with latitude := v } := by
  unfold processMeasurement
  simp only [h1, step4197_skip ti m (JValue.str "4198") rfl,
    step4198_set ti m v h2, step3000_skip _ m (JValue.str "4198") rfl]

/-- A loop iteration over a code-3000 entry. -/
lemma processMeasurement_3000 (ti : TrackerInfo) (m v : JValue)
    (h1 : subKey m "measurementId" = .ok (.str "3000"))
    (h2 : subKey m "measurementValue" = .ok v) :
    processMeasurement ti m = .ok { ti with battery := v } := by
  unfold processMeasurement
  simp only [h1, step4197_skip ti m (JValue.str "3000") rfl,
    step4198_skip ti m (JValue.str "3000") rfl, step3000_set ti m v h2]

/-- An entry whose measurementId is none of the recognized codes. -/
def UnrecEntry (m : JValue) : Prop :=
  ∃ mid, subKey m "measurementId" = .ok mid ∧
    pyEqStr mid "4197" = false ∧ pyEqStr mid "4198" = false ∧
    pyEqStr mid "3000" = false

/-- Unrecognized entries leave the reading unchanged. -/
lemma processMeasurement_unrec (ti : TrackerInfo) (m : JValue)
    (h : UnrecEntry m) : processMeasurement ti m = .ok ti := by
  obtain ⟨mid, h0, h1, h2, h3⟩ := h
  unfold processMeasurement
  simp only [h0, step4197_skip ti m mid h1, step4198_skip ti m mid h2,
    step3000_skip ti m mid h3]

/-- A run of unrecognized entries leaves the reading unchanged. -/
lemma foldProcess_unrec (ms : List JValue) (ti : TrackerInfo)
    (h : ∀ m ∈ ms, UnrecEntry m) : foldProcess ti ms = .ok ti := by
  induction ms with
  | nil => rfl
  | cons m rest ih =>
      have e : foldProcess ti (m :: rest) =
          match processMeasurement ti m with
          | .ok t => foldProcess t rest
          | .error e2 => .error e2 := rfl
      rw [e, processMeasurement_unrec ti m (h m (by simp))]
      exact ih (fun m2 hm2 => h m2 (by simp [hm2]))

/-- The loop over a successfully processed head continues on the tail. -/
lemma foldProcess_cons_ok (m : JValue) (ms : List JValue) (ti ti1 : TrackerInfo)
    (h : processMeasurement ti m = .ok ti1) :
    foldProcess ti (m :: ms) = foldProcess ti1 ms := by
  have e : foldProcess ti (m :: ms) =
      match processMeasurement ti m with
      | .ok t => foldProcess t ms
      | .error e2 => .error e2 := rfl
  rw [e, h]

/-- The loop over a successfully processed chunk continues on the rest. -/
lemma foldProcess_append (l1 l2 : List JValue) (ti ti1 : TrackerInfo)
    (h1 : foldProcess ti l1 = .ok ti1) :
    foldProcess ti (l1 ++ l2) = foldProcess ti1 l2 := by
  induction l1 generalizing ti with
  | nil => cases h1; rfl
  | cons m rest ih =>
      have e : foldProcess ti (m :: rest) =
          match processMeasurement ti m with
          | .ok t => foldProcess t rest
          | .error e2 => .error e2 := rfl
      rw [e] at h1
      cases hp : processMeasurement ti m with
      | ok ti2 =>
          rw [hp] at h1
          rw [List.cons_append, foldProcess_cons_ok m (rest ++ l2) ti ti2 hp]
          exact ih ti2 h1
      | error e2 =>
          rw [hp] at h1
          cases h1

/-- Claim C3: over a measurement list carrying one entry each for codes
4197, 4198 and 3000 in any order and any positions, with any number of
entries carrying unrecognized codes around them, the loop succeeds and
the decoded reading takes its longitude, latitude and battery from the
respective measurementValue entries (and the 4197 companion timestamp),
while the unrecognized entries change nothing. The three coded entries
are m1 (code 4197), m2 (code 4198) and m3 (code 3000); a, b and c are
the entries as they occur in list order, any permutation of m1, m2, m3. -/
theorem decode_recognized_codes
    (ti : TrackerInfo) (u0 u1 u2 u3 : List JValue)
    (a b c m1 m2 m3 v1 v2 v3 tsv : JValue) (n : Int) (s : String)
    (hu : ∀ m, m ∈ u0 ++ u1 ++ u2 ++ u3 → UnrecEntry m)
    (h11 : subKey m1 "measurementId" = .ok (.str "4197"))
    (h12 : subKey m1 "measurementValue" = .ok v1)
    (h13 : subKey m1 "timestamp" = .ok tsv)
    (h14 : pyInt tsv = .ok n)
    (h15 : fromtimestampFmt n = .ok s)
    (h21 : subKey m2 "measurementId" = .ok (.str "4198"))
    (h22 : subKey m2 "measurementValue" = .ok v2)
    (h31 : subKey m3 "measurementId" = .ok (.str "3000"))
    (h32 : subKey m3 "measurementValue" = .ok v3)
    (hperm : (m1 = a ∧ m2 = b ∧ m3 = c) ∨ (m1 = a ∧ m3 = b ∧ m2 = c) ∨
             (m2 = a ∧ m1 = b ∧ m3 = c) ∨ (m2 = a ∧ m3 = b ∧ m1 = c) ∨
             (m3 = a ∧ m1 = b ∧ m2 = c) ∨ (m3 = a ∧ m2 = b ∧ m1 = c)) :
    foldProcess ti (u0 ++ a :: (u1 ++ b :: (u2 ++ c :: u3))) =
      .ok { ti with
            longitude := v1, timestamp := .str s,
            latitude := v2, battery := v3 } := by
  have hu0 : ∀ m ∈ u0, UnrecEntry m := fun m hm => hu m (by simp [hm])
  have hu1 : ∀ m ∈ u1, UnrecEntry m := fun m hm => hu m (by simp [hm])
  have hu2 : ∀ m ∈ u2, UnrecEntry m := fun m hm => hu m (by simp [hm])
  have hu3 : ∀ m ∈ u3, UnrecEntry m := fun m hm => hu m (by simp [hm])
  have p1 : processMeasurement ti m1 =
      .ok { ti with longitude := v1, timestamp := .str s } :=
    processMeasurement_4197 ti m1 v1 tsv n s h11 h12 h13 h14 h15
  rcases hperm with ⟨ha, hb, hc⟩ | ⟨ha, hb, hc⟩ | ⟨ha, hb, hc⟩ |
    ⟨ha, hb, hc⟩ | ⟨ha, hb, hc⟩ | ⟨ha, hb, hc⟩ <;> subst ha <;> subst hb <;> subst hc
  · rw [foldProcess_append u0 _ ti ti (foldProcess_unrec u0 ti hu0),
        foldProcess_cons_ok m1 _ ti _ p1,
        foldProcess_append u1 _ _ _ (foldProcess_unrec u1 _ hu1),
        foldProcess_cons_ok m2 _ _ _ (processMeasurement_4198 _ m2 v2 h21 h22),
        foldProcess_append u2 _ _ _ (foldProcess_unrec u2 _ hu2),
        foldProcess_cons_ok m3 _ _ _ (processMeasurement_3000 _ m3 v3 h31 h32),
        foldProcess_unrec u3 _ hu3]
  · rw [foldProcess_append u0 _ ti ti (foldProcess_unrec u0 ti hu0),
        foldProcess_cons_ok m1 _ ti _ p1,
        foldProcess_append u1 _ _ _ (foldProcess_unrec u1 _ hu1),
        foldProcess_cons_ok m3 _ _ _ (processMeasurement_3000 _ m3 v3 h31 h32),
        foldProcess_append u2 _ _ _ (foldProcess_unrec u2 _ hu2),
        foldProcess_cons_ok m2 _ _ _ (processMeasurement_4198 _ m2 v2 h21 h22),
        foldProcess_unrec u3 _ hu3]
  · rw [foldProcess_append u0 _ ti ti (foldProcess_unrec u0 ti hu0),
        foldProcess_cons_ok m2 _ ti _ (processMeasurement_4198 _ m2 v2 h21 h22),
        foldProcess_append u1 _ _ _ (foldProcess_unrec u1 _ hu1),
        foldProcess_cons_ok m1 _ _ _
          (processMeasurement_4197 _ m1 v1 tsv n s h11 h12 h13 h14 h15),
        foldProcess_append u2 _ _ _ (foldProcess_unrec u2 _ hu2),
        foldProcess_cons_ok m3 _ _ _ (processMeasurement_3000 _ m3 v3 h31 h32),
        foldProcess_unrec u3 _ hu3]
  · rw [foldProcess_append u0 _ ti ti (foldProcess_unrec u0 ti hu0),
        foldProcess_cons_ok m2 _ ti _ (processMeasurement_4198 _ m2 v2 h21 h22),
        foldProcess_append u1 _ _ _ (foldProcess_unrec u1 _ hu1),
        foldProcess_cons_ok m3 _ _ _ (processMeasurement_3000 _ m3 v3 h31 h32),
        foldProcess_append u2 _ _ _ (foldProcess_unrec u2 _ hu2),
        foldProcess_cons_ok m1 _ _ _
          (processMeasurement_4197 _ m1 v1 tsv n s h11 h12 h13 h14 h15),
        foldProcess_unrec u3 _ hu3]
  · rw [foldProcess_append u0 _ ti ti (foldProcess_unrec u0 ti hu0),
        foldProcess_cons_ok m3 _ ti _ (processMeasurement_3000 _ m3 v3 h31 h32),
        foldProcess_append u1 _ _ _ (foldProcess_unrec u1 _ hu1),
        foldProcess_cons_ok m1 _ _ _
          (processMeasurement_4197 _ m1 v1 tsv n s h11 h12 h13 h14 h15),
        foldProcess_append u2 _ _ _ (foldProcess_unrec u2 _ hu2),
        foldProcess_cons_ok m2 _ _ _ (processMeasurement_4198 _ m2 v2 h21 h22),
        foldProcess_unrec u3 _ hu3]
  · rw [foldProcess_append u0 _ ti ti (foldProcess_unrec u0 ti hu0),
        foldProcess_cons_ok m3 _ ti _ (processMeasurement_3000 _ m3 v3 h31 h32),
        foldProcess_append u1 _ _ _ (foldProcess_unrec u1 _ hu1),
        foldProcess_cons_ok m2 _ _ _ (processMeasurement_4198 _ m2 v2 h21 h22),
        foldProcess_append u2 _ _ _ (foldProcess_unrec u2 _ hu2),
        foldProcess_cons_ok m1 _ _ _
          (processMeasurement_4197 _ m1 v1 tsv n s h11 h12 h13 h14 h15),
        foldProcess_unrec u3 _ hu3]

/-- Witness for claim C3: a concrete list in the order 3000, 4197, 4198
with one unrecognized entry interleaved decodes to exactly the expected
reading. -/
theorem decode_recognized_codes_witness :
    foldProcess initTrackerInfo
      ([] ++ measIdVal "3000" 87 :: ([measIdVal "9999" 5] ++ meas4197 ::
        ([] ++ measIdVal "4198" 52 :: []))) =
      .ok { initTrackerInfo with
            longitude := .num 13,
            timestamp := .str "2023-11-14 23:13",
            latitude := .num 52, battery := .num 87 } :=
  decode_recognized_codes initTrackerInfo [] [measIdVal "9999" 5] [] []
    (measIdVal "3000" 87) meas4197 (measIdVal "4198" 52)
    meas4197 (measIdVal "4198" 52) (measIdVal "3000" 87)
    (.num 13) (.num 52) (.num 87) (.num 1700000000000) 1700000000000
    "2023-11-14 23:13"
    (by
      intro m hm
      simp at hm
      subst hm
      exact ⟨JValue.str "9999", rfl, rfl, rfl, rfl⟩)
    rfl rfl rfl rfl rfl rfl rfl rfl rfl
    (Or.inr (Or.inr (Or.inr (Or.inr (Or.inl ⟨rfl, rfl, rfl⟩)))))

/-- Claim C9: a 4197 measurement entry sets the reading timestamp to its
companion epoch-millisecond timestamp rendered in the fixed Europe/Berlin
zone at minute precision; the rendering is the deterministic function
fmtBerlinMs of the epoch value, and epoch 1700000000000 yields the fixed
string 2023-11-14 23:13. -/
theorem decode_4197_sets_timestamp :
    (∀ (ti : TrackerInfo) (m v tsv : JValue) (n : Int) (s : String),
        subKey m "measurementId" = .ok (.str "4197") →
        subKey m "measurementValue" = .ok v →
        subKey m "timestamp" = .ok tsv →
        pyInt tsv = .ok n →
        fromtimestampFmt n = .ok s →
        processMeasurement ti m =
          .ok { ti with longitude := v, timestamp := .str s } ∧
        s = fmtBerlinMs n) ∧
    fromtimestampFmt 1700000000000 = .ok "2023-11-14 23:13" := by
  refine ⟨?_, rfl⟩
  intro ti m v tsv n s h1 h2 h3 h4 h5
  exact ⟨processMeasurement_4197 ti m v tsv n s h1 h2 h3 h4 h5,
    (fromtimestampFmt_ok n s h5).1⟩

/-- Witness for claim C9 on the concrete 4197 entry with the reference
epoch value. -/
theorem decode_4197_sets_timestamp_witness :
    processMeasurement initTrackerInfo meas4197 =
      .ok { initTrackerInfo with
            longitude := .num 13,
            timestamp := .str "2023-11-14 23:13" } ∧
    "2023-11-14 23:13" = fmtBerlinMs 1700000000000 :=
  decode_4197_sets_timestamp.1 initTrackerInfo meas4197 (.num 13)
    (.num 1700000000000) 1700000000000 "2023-11-14 23:13" rfl rfl rfl rfl rfl
